import Mathlib

/-!
Verification of the Kin voice-agent backend (src/backend).

Text is embedded as `List Char` (Python `str`), audio byte strings as
`List Nat`.  The streaming generators of the source are embedded as pure
functions over the finite list of items the upstream produces: an async
generator that yields values while folding state becomes structural
recursion over that list, and a provider network call becomes a
parameter holding the outcome the provider would deliver.
-/

namespace Kin

/-- Python `str.strip()`: drop leading and trailing whitespace.
(Lean's `Char.isWhitespace` covers space, tab, CR, LF, which is the
whitespace that occurs in the streams modelled here.) -/
def trim (l : List Char) : List Char :=
  ((l.dropWhile Char.isWhitespace).reverse.dropWhile Char.isWhitespace).reverse

/-- Python `s.endswith(c)` for a single character `c`. -/
def endsWithChar (l : List Char) (c : Char) : Bool :=
  l.getLast? = some c

/-- `should_generate_audio` from `chat.generate_audio_stream`
(src/backend/main.py lines 192-199), the six disjuncts in source order. -/
def should_generate_audio (buf : List Char) : Bool :=
  decide (40 ≤ buf.length) ||
  (endsWithChar buf '.' && decide (30 ≤ buf.length)) ||
  (endsWithChar buf '!' && decide (30 ≤ buf.length)) ||
  (endsWithChar buf '?' && decide (30 ≤ buf.length)) ||
  (endsWithChar buf ',' && decide (30 ≤ buf.length)) ||
  (endsWithChar buf ' ' && decide (40 ≤ buf.length))

/-- One iteration of the delta loop in `chat.generate_audio_stream`
(src/backend/main.py lines 186-204): append the delta, then emit the
trimmed buffer and reset it when `should_generate_audio` holds and the
trimmed buffer is non-empty.  Returns (emitted segment, new buffer). -/
def stepBuffer (buf delta : List Char) : Option (List Char) × List Char :=
  let buf' := buf ++ delta
  if should_generate_audio buf' && decide (0 < (trim buf').length)
  then (some (trim buf'), [])
  else (none, buf')

/-- The whole segmenting loop of `chat.generate_audio_stream`
(src/backend/main.py lines 180-213), including the end-of-stream flush of
the remaining buffer (`if text_buffer.strip():`), collecting the emitted
segment texts. -/
def segmentLoop : List Char → List (List Char) → List (List Char)
  | buf, [] => if decide (0 < (trim buf).length) then [trim buf] else []
  | buf, d :: ds =>
    let buf' := buf ++ d
    if should_generate_audio buf' && decide (0 < (trim buf').length)
    then trim buf' :: segmentLoop [] ds
    else segmentLoop buf' ds

/-- Segments produced for a full delta sequence (buffer starts empty). -/
def segmentDeltas (ds : List (List Char)) : List (List Char) :=
  segmentLoop [] ds

/-- The same loop, but with each emitted segment immediately handed to the
synthesis streamer `synth` and its audio chunks yielded in place
(src/backend/main.py lines 201-213): the orchestrator drains segment i's
chunks before processing further deltas. -/
def pipelineLoop (synth : List Char → List (List Nat)) :
    List Char → List (List Char) → List (List Nat)
  | buf, [] => if decide (0 < (trim buf).length) then synth (trim buf) else []
  | buf, d :: ds =>
    let buf' := buf ++ d
    if should_generate_audio buf' && decide (0 < (trim buf').length)
    then synth (trim buf') ++ pipelineLoop synth [] ds
    else pipelineLoop synth buf' ds

/-- Audio chunk sequence the orchestrator yields for a delta sequence. -/
def pipelineAudioChunks (synth : List Char → List (List Nat))
    (ds : List (List Char)) : List (List Nat) :=
  pipelineLoop synth [] ds

/-- The flush predicate in the spec's words: length ≥ 40, or ends in one
of `.` `!` `?` `,` with length ≥ 30, or ends in a space with length ≥ 40. -/
def flushPredicateSpec (buf : List Char) : Prop :=
  40 ≤ buf.length ∨
  ((buf.getLast? = some '.' ∨ buf.getLast? = some '!' ∨
    buf.getLast? = some '?' ∨ buf.getLast? = some ',') ∧ 30 ≤ buf.length) ∨
  (buf.getLast? = some ' ' ∧ 40 ≤ buf.length)

/-- The simplified predicate of claim C9: length ≥ 40, or ends in one of
`.` `!` `?` `,` with length ≥ 30 (no space clause). -/
def flushPredicateSimple (buf : List Char) : Bool :=
  decide (40 ≤ buf.length) ||
  ((endsWithChar buf '.' || endsWithChar buf '!' ||
    endsWithChar buf '?' || endsWithChar buf ',') && decide (30 ≤ buf.length))

instance (buf : List Char) : Decidable (flushPredicateSpec buf) := by
  unfold flushPredicateSpec; infer_instance

/-- Characters that are not whitespace, in order: the part of a text that
trimming can never touch. -/
def filterNW (l : List Char) : List Char :=
  l.filter (fun c => !c.isWhitespace)

/-- The delta sequence of the C5 scenario. -/
def helloDeltas : List (List Char) :=
  ["Hello".toList, " there".toList, ", how".toList,
   " are".toList, " you".toList, " today?".toList]

/-- The single segment the C5 scenario produces. -/
def helloSegment : List Char := "Hello there, how are you today?".toList

/-- A Python exception, classified the way the HTTP layer distinguishes
them: `ValueError` versus any other exception. -/
inductive PyExc where
  | valueError (msg : List Char)
  | otherError (msg : List Char)
deriving DecidableEq

/-- The status code the `chat`-style endpoint handlers assign to a raised
exception (src/backend/main.py lines 243-247): `ValueError` becomes 400,
anything else 500. -/
def chatExcStatus : PyExc → Nat
  | .valueError _ => 400
  | .otherError _ => 500

/-- HTTP status of a pipeline outcome: 200 on success, otherwise the
handler's classification of the raised exception. -/
def statusOf {α : Type} : Except PyExc α → Nat
  | .ok _ => 200
  | .error e => chatExcStatus e

/-- Message of the `ValueError` raised on empty audio input
(src/backend/stt_service.py line 63). -/
def emptyAudioMsg : List Char := "Audio data cannot be empty".toList

/-- Tag prepended when an upstream transcription failure is re-raised
(src/backend/stt_service.py line 132). -/
def sttErrTag : List Char := "STT transcription failed: ".toList

/-- `STTService.transcribe_audio` (src/backend/stt_service.py lines
33-132).  The provider's network round trip is the parameter `provider`:
its transcribed text on success, its error text on failure.  The
emptiness check precedes the call; any exception out of the call is
wrapped in a `ValueError` carrying the provider's error text. -/
def transcribe_audio (audio_data : List Nat)
    (provider : Except (List Char) (List Char)) : Except PyExc (List Char) :=
  if audio_data.isEmpty then Except.error (PyExc.valueError emptyAudioMsg)
  else
    match provider with
    | Except.ok t => Except.ok t
    | Except.error e => Except.error (PyExc.valueError (sttErrTag ++ e))

/-- Message of the no-speech `ValueError` raised by the chat endpoint
(src/backend/main.py line 162). -/
def noSpeechMsg : List Char := "No speech detected in audio file".toList

/-- The chat endpoint after transcription (src/backend/main.py lines
158-217), instrumented with the number of completion-streamer calls and
synthesis-streamer calls it performs: empty or whitespace-only
transcription raises the no-speech `ValueError` before the LLM stream is
opened and before any synthesis; otherwise the LLM is streamed once and
the synthesis streamer is invoked once per emitted segment, the chunks
relayed in order. -/
def chatPipeline (transcribedText : List Char) (deltas : List (List Char))
    (synth : List Char → List (List Nat)) :
    (Nat × Nat) × Except PyExc (List (List Nat)) :=
  if transcribedText.isEmpty || (trim transcribedText).isEmpty then
    ((0, 0), Except.error (PyExc.valueError noSpeechMsg))
  else
    ((1, (segmentDeltas deltas).length),
      Except.ok (pipelineAudioChunks synth deltas))

end Kin

namespace Kin.TTSService

/-- A control message sent over the synthesis websocket by
`TTSService.generate_audio_stream`: the initial message carrying the
cleaned text (its context id and voice-settings record are opaque
configuration, omitted), the flush frame, and the close-context frame. -/
inductive Ctrl where
  | initialText (text : List Char)
  | flushCtl
  | closeContext
deriving DecidableEq

/-- One frame received on the synthesis websocket, as the receive loop of
`generate_audio_stream` distinguishes them: a JSON text frame with an
optional audio payload (`some none` models a payload whose base64
decoding fails), the `is_final` flag, and an optional error message; an
unexpected binary frame; or an unparseable frame. -/
inductive Frame where
  | textFrame (audioPayload : Option (Option (List Nat))) (isFinal : Bool)
      (errMsg : Option (List Char))
  | binaryFrame (b : List Nat)
  | badJson
deriving DecidableEq

/-- The receive loop of `generate_audio_stream`
(src/backend/tts_service.py lines 220-256): an audio payload is decoded
and yielded (a failed decode `continue`s past the final/error checks of
that frame); `is_final` ends the loop; an error event raises with the
provider's message; binary frames are yielded as-is; unparseable frames
are skipped.  Returns the yielded chunks and how the loop ended. -/
def recvLoop : List Frame → List (List Nat) × Except (List Char) Unit
  | [] => ([], Except.ok ())
  | Frame.badJson :: fs => recvLoop fs
  | Frame.binaryFrame b :: fs =>
      let r := recvLoop fs
      (b :: r.1, r.2)
  | Frame.textFrame audioPayload isFinal errMsg :: fs =>
      match audioPayload with
      | some none => recvLoop fs
      | some (some b) =>
          if isFinal then ([b], Except.ok ())
          else
            match errMsg with
            | some e => ([b], Except.error e)
            | none =>
                let r := recvLoop fs
                (b :: r.1, r.2)
      | none =>
          if isFinal then ([], Except.ok ())
          else
            match errMsg with
            | some e => ([], Except.error e)
            | none => recvLoop fs

/-- Observable outcome of one `generate_audio_stream` call: the control
messages sent over the websocket, the audio chunks yielded to the
consumer, and the exception the generator raised, if any. -/
structure TTSRun where
  sent : List Ctrl
  chunks : List (List Nat)
  raised : Option PyExc
deriving DecidableEq

/-- Message of the `ValueError` on empty input text
(src/backend/tts_service.py line 169). -/
def emptyTextMsg : List Char := "Text cannot be empty".toList

/-- Message of the `ValueError` on text empty after cleaning
(src/backend/tts_service.py line 176). -/
def cleanedEmptyMsg : List Char := "Text is empty after cleaning".toList

/-- Tag prepended to a provider error event's message when it is raised
(src/backend/tts_service.py line 244). -/
def ttsErrTag : List Char := "TTS generation error: ".toList

/-- `TTSService.generate_audio_stream` (src/backend/tts_service.py lines
151-266), parametric in the sanitizer `clean` (the composition of
`strip_emojis` and `strip_markdown`, a stateless pure text filter whose
internals no claim depends on) and in the frames the provider sends.
Both input checks precede the connection.  After the initial and flush
sends, the receive loop runs; the `close_context` send sits after the
loop, so when an error event raises a `ValueError` out of the loop, that
send is never reached. -/
def generate_audio_stream (clean : List Char → List Char)
    (text : List Char) (frames : List Frame) : TTSRun :=
  if text.isEmpty || (trim text).isEmpty then
    ⟨[], [], some (PyExc.valueError emptyTextMsg)⟩
  else
    let cleaned := clean text
    if (trim cleaned).isEmpty then
      ⟨[], [], some (PyExc.valueError cleanedEmptyMsg)⟩
    else
      let r := recvLoop frames
      match r.2 with
      | Except.ok _ =>
          ⟨[Ctrl.initialText cleaned, Ctrl.flushCtl, Ctrl.closeContext],
            r.1, none⟩
      | Except.error e =>
          ⟨[Ctrl.initialText cleaned, Ctrl.flushCtl], r.1,
            some (PyExc.valueError (ttsErrTag ++ e))⟩

/-- The chunk accumulation of `generate_audio`: the `audio_chunks` list
built by the drain loop, joined with `b''.join`. -/
def collectChunks : List (List Nat) → List Nat
  | [] => []
  | c :: cs => c ++ collectChunks cs

/-- `TTSService.generate_audio` (src/backend/tts_service.py lines
268-287): drain `generate_audio_stream` into a list of chunks and join
them; an exception from the stream propagates, discarding the collected
chunks. -/
def generate_audio (clean : List Char → List Char)
    (text : List Char) (frames : List Frame) : Except PyExc (List Nat) :=
  let r := generate_audio_stream clean text frames
  match r.raised with
  | some e => Except.error e
  | none => Except.ok (collectChunks r.chunks)

end Kin.TTSService

namespace Kin

lemma should_generate_audio_iff (buf : List Char) :
    should_generate_audio buf = true ↔ flushPredicateSpec buf := by
  simp only [should_generate_audio, flushPredicateSpec, endsWithChar,
    Bool.or_eq_true, Bool.and_eq_true, decide_eq_true_eq]
  tauto

lemma trim_pos_iff (l : List Char) : (0 < (trim l).length) ↔ trim l ≠ [] := by
  cases h : trim l <;> simp [h]

lemma filterNW_append (a b : List Char) :
    filterNW (a ++ b) = filterNW a ++ filterNW b :=
  List.filter_append ..

lemma filterNW_dropWhile (l : List Char) :
    filterNW (l.dropWhile Char.isWhitespace) = filterNW l := by
  induction l with
  | nil => rfl
  | cons c l ih =>
      by_cases h : Char.isWhitespace c
      · simpa [List.dropWhile, h, filterNW] using ih
      · simp [List.dropWhile, h]

lemma filterNW_reverse (l : List Char) :
    filterNW l.reverse = (filterNW l).reverse := by
  simp [filterNW, List.filter_reverse]

lemma filterNW_trim (l : List Char) : filterNW (trim l) = filterNW l := by
  unfold trim
  rw [filterNW_reverse, filterNW_dropWhile, filterNW_reverse,
    List.reverse_reverse, filterNW_dropWhile]

lemma filterNW_nil : filterNW [] = [] := rfl

lemma segmentLoop_cons_flush (buf d : List Char) (ds : List (List Char))
    (h : (should_generate_audio (buf ++ d) &&
      decide (0 < (trim (buf ++ d)).length)) = true) :
    segmentLoop buf (d :: ds) = trim (buf ++ d) :: segmentLoop [] ds := by
  simp [segmentLoop, h]

lemma segmentLoop_cons_keep (buf d : List Char) (ds : List (List Char))
    (h : (should_generate_audio (buf ++ d) &&
      decide (0 < (trim (buf ++ d)).length)) ≠ true) :
    segmentLoop buf (d :: ds) = segmentLoop (buf ++ d) ds := by
  simp only [segmentLoop]
  rw [if_neg h]

lemma trim_eq_nil_of_not_pos (buf : List Char) (h : ¬ 0 < (trim buf).length) :
    trim buf = [] := by
  cases hc : trim buf with
  | nil => rfl
  | cons x xs => exact absurd (by simp [hc]) h

/-- The segmenting loop loses and duplicates no non-whitespace character:
what it emits carries exactly the non-whitespace characters of the input
stream, in order. -/
lemma segmentLoop_filterNW (ds : List (List Char)) : ∀ buf : List Char,
    filterNW (List.flatten (segmentLoop buf ds)) =
      filterNW (buf ++ List.flatten ds) := by
  induction ds with
  | nil =>
      intro buf
      by_cases h : 0 < (trim buf).length
      · simp [segmentLoop, h, filterNW_trim]
      · have h0 : filterNW buf = [] := by
          rw [← filterNW_trim, trim_eq_nil_of_not_pos buf h]; rfl
        simp [segmentLoop, h, h0, filterNW_nil]
  | cons d ds ih =>
      intro buf
      by_cases h : (should_generate_audio (buf ++ d) &&
          decide (0 < (trim (buf ++ d)).length)) = true
      · have hrec := ih []
        rw [List.nil_append] at hrec
        rw [segmentLoop_cons_flush buf d ds h, List.flatten_cons,
          filterNW_append, filterNW_trim, hrec, List.flatten_cons]
        simp [filterNW_append, List.append_assoc]
      · rw [segmentLoop_cons_keep buf d ds h, ih (buf ++ d),
          List.flatten_cons, List.append_assoc]

lemma segmentLoop_not_nil_mem (ds : List (List Char)) : ∀ buf : List Char,
    (segmentLoop buf ds).all (fun s => !s.isEmpty) = true := by
  induction ds with
  | nil =>
      intro buf
      by_cases h : 0 < (trim buf).length
      · cases hc : trim buf with
        | nil => rw [hc] at h; exact absurd h (by simp)
        | cons x xs => simp [segmentLoop, h, hc]
      · simp [segmentLoop, h]
  | cons d ds ih =>
      intro buf
      by_cases h : (should_generate_audio (buf ++ d) &&
          decide (0 < (trim (buf ++ d)).length)) = true
      · have h2 : should_generate_audio (buf ++ d) = true ∧
            decide (0 < (trim (buf ++ d)).length) = true := by simpa using h
        have hpos : 0 < (trim (buf ++ d)).length := of_decide_eq_true h2.2
        rw [segmentLoop_cons_flush buf d ds h, List.all_cons, ih [],
          Bool.and_true]
        cases hc : trim (buf ++ d) with
        | nil => rw [hc] at hpos; exact absurd hpos (by simp)
        | cons x xs => simp
      · rw [segmentLoop_cons_keep buf d ds h]
        exact ih (buf ++ d)

/-- The orchestrator's chunk loop equals: list of segments, each mapped
through synthesis, concatenated in order. -/
lemma pipelineLoop_eq_bind (synth : List Char → List (List Nat))
    (ds : List (List Char)) : ∀ buf : List Char,
    pipelineLoop synth buf ds = (segmentLoop buf ds).flatMap synth := by
  induction ds with
  | nil =>
      intro buf
      by_cases h : 0 < (trim buf).length <;>
        simp [pipelineLoop, segmentLoop, h]
  | cons d ds ih =>
      intro buf
      by_cases h : (should_generate_audio (buf ++ d) &&
          decide (0 < (trim (buf ++ d)).length)) = true
      · simp [pipelineLoop, segmentLoop, h, ih []]
      · simp only [pipelineLoop, segmentLoop, h, if_false, Bool.false_eq_true]
        exact ih (buf ++ d)

lemma collectChunks_eq_flatten (l : List (List Nat)) :
    TTSService.collectChunks l = l.flatten := by
  induction l with
  | nil => rfl
  | cons c cs ih => simp [TTSService.collectChunks, ih]

end Kin

namespace Kin

/-- C1.  Segment Buffer flush predicate: after appending a delta to the
buffer, a segment is emitted — containing the trimmed buffer, the buffer
being reset to empty — exactly when the trimmed buffer is non-empty and
the buffer satisfies the length/punctuation flush predicate; otherwise
nothing is emitted and the appended buffer is kept. -/
theorem c1_flush_predicate (buf delta : List Char) :
    stepBuffer buf delta =
      if trim (buf ++ delta) ≠ [] ∧ flushPredicateSpec (buf ++ delta)
      then (some (trim (buf ++ delta)), ([] : List Char))
      else (none, buf ++ delta) := by
  by_cases h : trim (buf ++ delta) ≠ [] ∧ flushPredicateSpec (buf ++ delta)
  · rw [if_pos h]
    have hb : should_generate_audio (buf ++ delta) = true :=
      (should_generate_audio_iff _).mpr h.2
    have ht : (0 < (trim (buf ++ delta)).length) := (trim_pos_iff _).mpr h.1
    simp [stepBuffer, hb, ht]
  · rw [if_neg h]
    rcases not_and_or.mp h with h1 | h2
    · have ht : ¬ (0 < (trim (buf ++ delta)).length) := by
        rw [trim_pos_iff]; exact fun hne => h1 hne
      simp [stepBuffer, ht]
    · have hb : ¬ should_generate_audio (buf ++ delta) = true := by
        rw [should_generate_audio_iff]; exact h2
      simp [stepBuffer, hb]

/-- C9.  The implemented flush predicate equals the simplified predicate
without the trailing-space clause: that clause demands length ≥ 40, which
the first disjunct already grants. -/
theorem c9_flush_predicate_simplified (buf : List Char) :
    should_generate_audio buf = flushPredicateSimple buf := by
  simp only [should_generate_audio, flushPredicateSimple]
  cases h40 : decide (40 ≤ buf.length) <;>
    cases h30 : decide (30 ≤ buf.length) <;>
      cases hd : endsWithChar buf '.' <;>
        cases he : endsWithChar buf '!' <;>
          cases hq : endsWithChar buf '?' <;>
            cases hc : endsWithChar buf ',' <;>
              cases hs : endsWithChar buf ' ' <;> simp

/-- C2 counterexample.  Deltas `[40 times 'a', "b"]`: the first delta
flushes a 40-character segment mid-word, so joining the two emitted
segments with a single space inserts a space that the trimmed
concatenation of the deltas does not contain — the claimed equation is
false there. -/
theorem c2_counterexample :
    decide (List.intercalate [' ']
        (segmentDeltas [List.replicate 40 'a', ['b']]) =
      trim (List.flatten [List.replicate 40 'a', ['b']])) = false := by rfl

/-- C2 (amended).  Segmentation completeness up to whitespace: for every
finite delta sequence, the concatenation of the emitted segments carries
exactly the non-whitespace characters of the concatenation of the deltas,
in order — no delta is lost or duplicated, only whitespace at flush
boundaries may be dropped — and no emitted segment is empty. -/
theorem c2_segmentation_no_loss (ds : List (List Char)) :
    filterNW (List.flatten (segmentDeltas ds)) = filterNW (List.flatten ds) ∧
    (segmentDeltas ds).all (fun s => !s.isEmpty) = true := by
  refine ⟨?_, segmentLoop_not_nil_mem ds []⟩
  simpa using segmentLoop_filterNW ds []

/-- C4.  Audio output ordering: the orchestrator's output chunk sequence
is exactly the per-segment chunk sequences, in segment-emission order,
concatenated — so every chunk of segment i precedes every chunk of
segment i+1, for any synthesis function (hence for any per-segment chunk
sequences). -/
theorem c4_audio_ordering (synth : List Char → List (List Nat))
    (ds : List (List Char)) :
    pipelineAudioChunks synth ds = (segmentDeltas ds).flatMap synth :=
  pipelineLoop_eq_bind synth ds []

/-- C5 counterexample.  The scenario's single segment has 31 characters,
not the 33 the claim asserts. -/
theorem c5_counterexample :
    decide ((segmentDeltas helloDeltas).map List.length = [33]) = false := by
  rfl

/-- C5 (amended).  Feeding the deltas `["Hello", " there", ", how",
" are", " you", " today?"]` yields exactly one segment
`"Hello there, how are you today?"` — 31 characters, ending in `?`,
length ≥ 30 — emitted at the delta carrying the `?`: the flush predicate
is false after each of the first five deltas and true after the sixth. -/
theorem c5_hello_scenario :
    segmentDeltas helloDeltas = [helloSegment] ∧
    helloSegment.length = 31 ∧
    helloSegment.getLast? = some '?' ∧
    ((List.range 6).map fun i =>
        should_generate_audio (List.flatten (helloDeltas.take (i + 1)))) =
      [false, false, false, false, false, true] := by decide

/-- C3.  Session cleanup, evaluated at the failing input: when the
provider answers with a single error event, the `ValueError` raised in
the receive loop propagates before the close send is reached, so the
`close_context` control message is sent zero times — contradicting the
claimed every-exit-path guarantee — while on a success path (a final
marker) it is sent exactly once. -/
theorem c3_close_not_sent_on_error :
    ((TTSService.generate_audio_stream id "hello".toList
        [TTSService.Frame.textFrame none false (some "boom".toList)]).sent.count
      TTSService.Ctrl.closeContext = 0) ∧
    ((TTSService.generate_audio_stream id "hello".toList
        [TTSService.Frame.textFrame none false (some "boom".toList)]).raised =
      some (PyExc.valueError (TTSService.ttsErrTag ++ "boom".toList))) ∧
    ((TTSService.generate_audio_stream id "hello".toList
        [TTSService.Frame.textFrame none true none]).sent.count
      TTSService.Ctrl.closeContext = 1) := by
  refine ⟨rfl, rfl, rfl⟩

/-- C6 counterexample.  An upstream transcription failure is wrapped in a
`ValueError` and surfaced with status 400 — a client error, below 500,
not the server error the claim requires. -/
theorem c6_counterexample :
    statusOf (transcribe_audio [0]
        (Except.error "upstream rejected the request".toList)) = 400 ∧
    400 < 500 :=
  ⟨rfl, by decide⟩

/-- C6 (amended).  Provider failures that the services wrap in
`ValueError` — a failed transcription round trip, an explicit synthesis
error event — surface as the client error 400, the same surfacing as
`InvalidInput` and `NoSpeechDetected`, with the provider's own error
text kept as a suffix of the message; only exceptions that are not a
`ValueError` (e.g. a failed handshake) surface as the server error 500. -/
theorem c6_upstream_surfacing (audio : List Nat) (h : audio.isEmpty = false)
    (e m : List Char) :
    transcribe_audio audio (Except.error e) =
      Except.error (PyExc.valueError (sttErrTag ++ e)) ∧
    chatExcStatus (PyExc.valueError (sttErrTag ++ e)) = 400 ∧
    e <:+ (sttErrTag ++ e) ∧
    ((TTSService.generate_audio_stream id "hello".toList
        [TTSService.Frame.textFrame none false (some e)]).raised =
      some (PyExc.valueError (TTSService.ttsErrTag ++ e))) ∧
    e <:+ (TTSService.ttsErrTag ++ e) ∧
    chatExcStatus (PyExc.otherError m) = 500 := by
  refine ⟨?_, rfl, ⟨sttErrTag, rfl⟩, rfl, ⟨TTSService.ttsErrTag, rfl⟩, rfl⟩
  unfold transcribe_audio
  rw [h]
  simp

/-- C6 witness. -/
theorem c6_witness :
    ([0] : List Nat).isEmpty = false ∧
    transcribe_audio [0] (Except.error "boom".toList) =
      Except.error (PyExc.valueError (sttErrTag ++ "boom".toList)) :=
  ⟨rfl, (c6_upstream_surfacing [0] rfl "boom".toList "x".toList).1⟩

/-- C7.  Silence handling: when the transcription text is empty or
whitespace-only, the chat pipeline raises the no-speech `ValueError` —
classified as the client error 400 — with zero completion-streamer calls
and zero synthesis calls. -/
theorem c7_silence_handling (t : List Char) (h : trim t = [])
    (deltas : List (List Char)) (synth : List Char → List (List Nat)) :
    chatPipeline t deltas synth =
      ((0, 0), Except.error (PyExc.valueError noSpeechMsg)) ∧
    chatExcStatus (PyExc.valueError noSpeechMsg) = 400 := by
  refine ⟨?_, rfl⟩
  unfold chatPipeline
  rw [h]
  simp

/-- C7 witness: the spec's scenario, transcription text `"  "`. -/
theorem c7_witness :
    trim [' ', ' '] = [] ∧
    chatPipeline [' ', ' '] [] (fun _ => []) =
      ((0, 0), Except.error (PyExc.valueError noSpeechMsg)) :=
  ⟨by decide, (c7_silence_handling [' ', ' '] (by decide) [] (fun _ => [])).1⟩

/-- C8.  InvalidInput rejection before I/O: empty audio makes
`transcribe_audio` fail with the empty-audio `ValueError` whatever the
provider would have answered, and text that is empty (or empty after
sanitization) makes `generate_audio_stream` fail with the corresponding
`ValueError`, with no control message sent and no chunk yielded,
whatever frames the provider would have sent. -/
theorem c8_invalid_input_before_io
    (provider : Except (List Char) (List Char))
    (clean : List Char → List Char) (text : List Char)
    (h : trim text = [] ∨ trim (clean text) = [])
    (frames : List TTSService.Frame) :
    transcribe_audio [] provider =
      Except.error (PyExc.valueError emptyAudioMsg) ∧
    (TTSService.generate_audio_stream clean text frames).sent = [] ∧
    (TTSService.generate_audio_stream clean text frames).chunks = [] ∧
    ((TTSService.generate_audio_stream clean text frames).raised =
        some (PyExc.valueError TTSService.emptyTextMsg) ∨
      (TTSService.generate_audio_stream clean text frames).raised =
        some (PyExc.valueError TTSService.cleanedEmptyMsg)) := by
  refine ⟨rfl, ?_⟩
  by_cases h1 : (text.isEmpty || (trim text).isEmpty) = true
  · unfold TTSService.generate_audio_stream
    rw [if_pos h1]
    exact ⟨rfl, rfl, Or.inl rfl⟩
  · have h2 : trim (clean text) = [] := by
      rcases h with h | h
      · exact absurd (by simp [h]) h1
      · exact h
    unfold TTSService.generate_audio_stream
    rw [if_neg h1]
    simp [h2]

/-- C8 witness. -/
theorem c8_witness :
    (trim ([] : List Char) = [] ∨ trim (id ([] : List Char)) = []) ∧
    transcribe_audio [] (Except.ok "hi".toList) =
      Except.error (PyExc.valueError emptyAudioMsg) ∧
    (TTSService.generate_audio_stream id [] [TTSService.Frame.badJson]).sent =
      [] :=
  ⟨Or.inl rfl,
   (c8_invalid_input_before_io (Except.ok "hi".toList) id []
      (Or.inl rfl) [TTSService.Frame.badJson]).1,
   (c8_invalid_input_before_io (Except.ok "hi".toList) id []
      (Or.inl rfl) [TTSService.Frame.badJson]).2.1⟩

/-- C10.  The blocking variant refines the streaming variant: whenever
the streaming call raises nothing, `generate_audio` returns exactly the
in-order byte-wise concatenation of the chunks `generate_audio_stream`
yields on the same inputs. -/
theorem c10_generate_audio_refines_stream
    (clean : List Char → List Char) (text : List Char)
    (frames : List TTSService.Frame)
    (h : (TTSService.generate_audio_stream clean text frames).raised = none) :
    TTSService.generate_audio clean text frames =
      Except.ok (List.flatten
        (TTSService.generate_audio_stream clean text frames).chunks) := by
  simp only [TTSService.generate_audio, h, collectChunks_eq_flatten]

/-- C10 witness: a stream of one binary chunk then a final marker. -/
theorem c10_witness :
    (TTSService.generate_audio_stream id "hi".toList
        [TTSService.Frame.binaryFrame [1, 2],
         TTSService.Frame.textFrame none true none]).raised = none ∧
    TTSService.generate_audio id "hi".toList
        [TTSService.Frame.binaryFrame [1, 2],
         TTSService.Frame.textFrame none true none] =
      Except.ok (List.flatten
        (TTSService.generate_audio_stream id "hi".toList
          [TTSService.Frame.binaryFrame [1, 2],
           TTSService.Frame.textFrame none true none]).chunks) :=
  ⟨rfl, c10_generate_audio_refines_stream id "hi".toList
    [TTSService.Frame.binaryFrame [1, 2],
     TTSService.Frame.textFrame none true none] rfl⟩

end Kin
